import Mathlib

/-!
Verification development for `generate_docker_compose.py`: a single-pass
generator that derives a docker-compose manifest (networks, per-node
storage services, two dependent microservices) from a static topology
table, bootstraps per-service log files, and serializes the result.

Python dicts, lists, strings and ints are embedded as the `Yaml` value
type; dict insertion (`d[k] = v`) is `dictInsert`; the script's
filesystem effects are embedded as explicit state passing over an
association list of paths to file contents.
-/

set_option autoImplicit false

/-- A node descriptor of the topology table (`node_config` entries in the
script): a name, an RDB snapshot filename, and a primary port. -/
structure Node where
  name : String
  rdb : String
  port : Int
deriving DecidableEq, Repr

/-- The topology table hard-coded at the top of the script (lines 4-14). -/
def node_config : List Node := [
  ⟨"node0", "redis_node_0_5460_14000.rdb", 4000⟩,
  ⟨"node1", "redis_node_5460_10921_14001.rdb", 4001⟩,
  ⟨"node2", "redis_node_10921_16383_14002.rdb", 4002⟩,
  ⟨"node3", "redis_node_0_5460_14003.rdb", 4003⟩,
  ⟨"node4", "redis_node_0_5460_14004.rdb", 4004⟩,
  ⟨"node5", "redis_node_5460_10921_14005.rdb", 4005⟩,
  ⟨"node6", "redis_node_5460_10921_14006.rdb", 4006⟩,
  ⟨"node7", "redis_node_10921_16383_14007.rdb", 4007⟩,
  ⟨"node8", "redis_node_10921_16383_14008.rdb", 4008⟩]

/-- The first node of the table, named for use in concrete instances. -/
def node0 : Node := ⟨"node0", "redis_node_0_5460_14000.rdb", 4000⟩

/-- The Python values assembled by the script: strings, ints, lists and
insertion-ordered dicts with string keys. -/
inductive Yaml where
  | str : String → Yaml
  | int : Int → Yaml
  | list : List Yaml → Yaml
  | map : List (String × Yaml) → Yaml
deriving Repr

/-- The shared internal network name (line 32). -/
def network_name : String := "redinternanodos"

/-- Python dict assignment `d[k] = v` on an insertion-ordered
association list: replaces the value in place if the key is present,
appends the pair otherwise. -/
def dictInsert {α : Type} (k : String) (v : α) : List (String × α) → List (String × α)
  | [] => [(k, v)]
  | (k', v') :: rest =>
    if k' = k then (k, v) :: rest else (k', v') :: dictInsert k v rest

/-- Association-list lookup (Python `d[k]` / `k in d`). -/
def assocFind {α : Type} (k : String) : List (String × α) → Option α
  | [] => none
  | (k', v) :: rest => if k' = k then some v else assocFind k rest

/-- The build-only `redis-base` service (lines 35-42). -/
def redisBase : Yaml := .map [
  ("build", .map [
    ("context", .str "."),
    ("dockerfile", .str "./redis_server/BaseDockerfile")]),
  ("image", .str "redis-base:latest"),
  ("profiles", .list [.str "build-only"])]

/-- The secondary (cluster-bus) port of a node, as computed inline on
line 70 of the script: `14000 + (port - 4000)`. -/
def secondaryPort (n : Node) : Int := 14000 + (n.port - 4000)

/-- The per-node storage service synthesized by the loop body on
lines 45-85. -/
def nodeService (n : Node) : Yaml := .map [
  ("networks", .list [.str network_name]),
  ("build", .map [
    ("context", .str "."),
    ("dockerfile", .str "./redis_server/NodeDockerfile"),
    ("args", .map [
      ("RDB_PATH", .str s!"redis_server/rdb_files/{n.rdb}")])]),
  ("container_name", .str n.name),
  ("working_dir", .str "/app/"),
  ("environment", .map [
    ("LOG_FILE", .str s!"/app/logs/{n.name}.log"),
    ("ENCRYPTION_KEY", .str "${ENCRYPTION_KEY}"),
    ("RDB_PATH", .str s!"/app/redis_server/rdb_files/{n.rdb}")]),
  ("ports", .list [
    .str s!"{14000 + (n.port - 4000)}:{14000 + (n.port - 4000)}",
    .str s!"{n.port}:{n.port}"]),
  ("volumes", .list [
    .str s!"./redis_server/rdb_files/{n.rdb}:/app/redis_server/rdb_files/{n.rdb}",
    .str s!"./logs/{n.name}.log:/app/logs/{n.name}.log"]),
  ("ulimits", .map [
    ("nofile", .map [
      ("soft", .int 65536),
      ("hard", .int 65536)])]),
  ("command", .list [.str (toString n.port)])]

/-- The `name:port` endpoint string of one node, as in the comprehension
on lines 103 and 127. -/
def endpointStr (n : Node) : String := s!"{n.name}:{n.port}"

/-- The `REDIS_NODE_HOSTS` value: the comma-joined endpoint list over
`node_config[::-1]`, i.e. over the reversed table (lines 103 and 127). -/
def redisNodeHosts (cfg : List Node) : String :=
  String.intercalate "," (cfg.reverse.map endpointStr)

/-- The LLM microservice (lines 88-109). -/
def llmService (cfg : List Node) : Yaml := .map [
  ("networks", .list [.str network_name]),
  ("build", .map [
    ("context", .str "."),
    ("dockerfile", .str "llm_microservice/Dockerfile")]),
  ("restart", .str "on-failure"),
  ("image", .str "llm_microservice"),
  ("container_name", .str "llm_microservice"),
  ("working_dir", .str "/app"),
  ("volumes", .list [.str "./logs/llm_microservice.log:/app/logs/llm_microservice.log"]),
  ("depends_on", .list (cfg.map fun n => .str n.name)),
  ("environment", .map [
    ("REDIS_NODE_HOSTS", .str (redisNodeHosts cfg)),
    ("GEMINI_API_KEY", .str "${GEMINI_API_KEY}"),
    ("LOG_FILE", .str "/app/logs/llm_microservice.log")]),
  ("ports", .list [.str "4030:4030"]),
  ("command", .list [.str "/app/llm_microservice_bin"])]

/-- The primary microservice (lines 112-132). -/
def microService (cfg : List Node) : Yaml := .map [
  ("networks", .list [.str network_name]),
  ("build", .map [
    ("context", .str "."),
    ("dockerfile", .str "microservice/Dockerfile")]),
  ("restart", .str "on-failure"),
  ("image", .str "microservice"),
  ("container_name", .str "microservice"),
  ("working_dir", .str "/app"),
  ("volumes", .list [.str "./logs/microservice.log:/app/logs/microservice.log"]),
  ("depends_on", .list (cfg.map fun n => .str n.name)),
  ("environment", .map [
    ("REDIS_NODE_HOSTS", .str (redisNodeHosts cfg)),
    ("LOG_FILE", .str "/app/logs/microservice.log")]),
  ("ports", .list [.str "5000:5000"]),
  ("command", .list [.str "/app/microservice_bin"])]

/-- The `services` dict, assembled by the script's sequence of dict
assignments: `redis-base` first (line 35), one entry per node in table
order (lines 45-85), then the two microservices (lines 88, 112). -/
def mkServices (cfg : List Node) : List (String × Yaml) :=
  dictInsert "microservice" (microService cfg)
    (dictInsert "llm_microservice" (llmService cfg)
      (cfg.foldl (fun acc n => dictInsert n.name (nodeService n) acc)
        (dictInsert "redis-base" redisBase [])))

/-- The final `docker_compose` structure (lines 135-142): `networks`
first, then `services`, in insertion order. -/
def dockerCompose (cfg : List Node) : Yaml := .map [
  ("networks", .map [
    (network_name, .map [("driver", .str "bridge")])]),
  ("services", .map (mkServices cfg))]

mutual

/-- Model of `yaml.dump(..., sort_keys=False)`: a deterministic
serializer of the assembled structure that preserves insertion order
(flow style; the determinism and order-dependence of the emission are
what the claims are about, not PyYAML's concrete block layout). -/
def renderYaml : Yaml → String
  | .str s => s
  | .int n => toString n
  | .list xs => "[" ++ String.intercalate ", " (renderYamlList xs) ++ "]"
  | .map kvs => "\x7b" ++ String.intercalate ", " (renderYamlPairs kvs) ++ "\x7d"

def renderYamlList : List Yaml → List String
  | [] => []
  | x :: xs => renderYaml x :: renderYamlList xs

def renderYamlPairs : List (String × Yaml) → List String
  | [] => []
  | (k, v) :: ps => (k ++ ": " ++ renderYaml v) :: renderYamlPairs ps

end

/-- The full manifest text written to `docker-compose.yml` on line 146. -/
def manifestText : String := renderYaml (dockerCompose node_config)

/-- Disk state: an association list of paths to file contents. -/
def FS : Type := List (String × String)

/-- File lookup by path. -/
def fsLookup (p : String) (fs : FS) : Option String := assocFind p fs

/-- Writing (creating or replacing) a file. -/
def fsWrite (p c : String) (fs : FS) : FS := dictInsert p c fs

/-- `os.path.exists` (line 22/28). -/
def fsExists (p : String) (fs : FS) : Bool := (fsLookup p fs).isSome

/-- The log path of a service name (lines 21 and 27). -/
def logPath (name : String) : String := s!"logs/{name}.log"

/-- The service names the two bootstrap loops create log files for, in
program order: every node of the table (lines 20-23), then the two
microservices (lines 26-29). -/
def logNames : List String :=
  node_config.map Node.name ++ ["llm_microservice", "microservice"]

/-- A fault-injection point for one run: no fault, an exception raised
by the `open(...)` of the i-th log-file creation attempt, or an
exception raised by `yaml.dump` after `k` characters of the manifest
have been written (the output file was already opened with `"w"`, i.e.
truncated, at that point). -/
inductive Fault where
  | ok : Fault
  | logCreate : Nat → Fault
  | dumpAfter : Nat → Fault
deriving DecidableEq, Repr

/-- Outcome of a run: whether the process exits with status 0, and the
final disk state. -/
structure RunResult where
  exitOk : Bool
  fs : FS

/-- The log-bootstrap loops (lines 20-29): for each service name in
order, if `logs/{name}.log` does not exist, create it empty (Python
`open(path, "a").close()` creates without truncating). A `logCreate`
fault aborts at that creation attempt. -/
def createLogs (f : Fault) : List String → Nat → FS → RunResult
  | [], _, fs => ⟨true, fs⟩
  | name :: rest, i, fs =>
    if fsExists (logPath name) fs then createLogs f rest (i + 1) fs
    else if f = Fault.logCreate i then ⟨false, fs⟩
    else createLogs f rest (i + 1) (fsWrite (logPath name) "" fs)

/-- The manifest write (lines 145-146): `open("docker-compose.yml", "w")`
truncates the file first; `yaml.dump` then writes the serialized text.
A `dumpAfter k` fault leaves only the first `k` characters on disk. -/
def writeManifest (f : Fault) (fs : FS) : RunResult :=
  let fs1 := fsWrite "docker-compose.yml" "" fs
  match f with
  | Fault.dumpAfter k =>
    ⟨false, fsWrite "docker-compose.yml" (String.mk (manifestText.data.take k)) fs1⟩
  | _ => ⟨true, fsWrite "docker-compose.yml" manifestText fs1⟩

/-- One run of the script over an initial disk state: bootstrap the log
files, then (if no exception was raised) write the manifest. An
uncaught exception propagates, so `exitOk = false` models a non-zero
process exit status. -/
def run (f : Fault) (fs : FS) : RunResult :=
  let r := createLogs f logNames 0 fs
  if r.exitOk then writeManifest f r.fs else r

/-- Lookup of a key in a `Yaml` mapping (Python `d[k]` on a dict value). -/
def yamlGet (k : String) : Yaml → Option Yaml
  | .map kvs => assocFind k kvs
  | _ => none

/-- Lookup of one environment variable of a service descriptor. -/
def serviceEnv (k : String) (s : Yaml) : Option Yaml :=
  (yamlGet "environment" s).bind (yamlGet k)

/-! ### Association-list and filesystem lemmas -/

theorem assocFind_dictInsert_self {α : Type} (k : String) (v : α)
    (l : List (String × α)) : assocFind k (dictInsert k v l) = some v := by
  induction l with
  | nil => simp [dictInsert, assocFind]
  | cons p rest ih =>
    obtain ⟨k', v'⟩ := p
    by_cases h : k' = k
    · simp [dictInsert, h, assocFind]
    · simp [dictInsert, h, assocFind, ih]

theorem assocFind_dictInsert_ne {α : Type} (k q : String) (v : α)
    (l : List (String × α)) (h : q ≠ k) :
    assocFind k (dictInsert q v l) = assocFind k l := by
  induction l with
  | nil => simp [dictInsert, assocFind, h]
  | cons p rest ih =>
    obtain ⟨k', v'⟩ := p
    by_cases h1 : k' = q
    · subst h1
      simp [dictInsert, assocFind, h, ih]
    · by_cases h2 : k' = k <;> simp [dictInsert, assocFind, h1, h2, Ne.symm h, ih]

theorem dictInsert_eq_append {α : Type} (k : String) (v : α)
    (l : List (String × α)) (h : k ∉ l.map Prod.fst) :
    dictInsert k v l = l ++ [(k, v)] := by
  induction l with
  | nil => simp [dictInsert]
  | cons p rest ih =>
    obtain ⟨k', v'⟩ := p
    simp only [List.map_cons, List.mem_cons] at h
    push_neg at h
    simp [dictInsert, Ne.symm h.1, ih h.2]

theorem fsLookup_fsWrite_self (p c : String) (fs : FS) :
    fsLookup p (fsWrite p c fs) = some c :=
  assocFind_dictInsert_self p c fs

theorem fsLookup_fsWrite_ne (p q c : String) (fs : FS) (h : q ≠ p) :
    fsLookup p (fsWrite q c fs) = fsLookup p fs :=
  assocFind_dictInsert_ne p q c fs h

/-! ### The services dict in normal form -/

theorem foldl_nodes_eq_append (cfg : List Node) (acc : List (String × Yaml))
    (hfresh : ∀ n ∈ cfg, n.name ∉ acc.map Prod.fst)
    (hnd : (cfg.map Node.name).Nodup) :
    cfg.foldl (fun a n => dictInsert n.name (nodeService n) a) acc
      = acc ++ cfg.map (fun n => (n.name, nodeService n)) := by
  induction cfg generalizing acc with
  | nil => simp
  | cons n rest ih =>
    simp only [List.foldl_cons]
    rw [dictInsert_eq_append n.name (nodeService n) acc (hfresh n (by simp))]
    simp only [List.map_cons, List.nodup_cons] at hnd
    rw [ih (acc ++ [(n.name, nodeService n)]) ?fresh hnd.2]
    · simp
    case fresh =>
      intro m hm
      simp only [List.map_append, List.mem_append, List.map_cons, List.map_nil,
        List.mem_singleton, not_or]
      refine ⟨hfresh m (by simp [hm]), ?_⟩
      intro hc
      exact hnd.1 (hc ▸ List.mem_map_of_mem Node.name hm)

theorem mkServices_eq (cfg : List Node)
    (hnd : (cfg.map Node.name).Nodup)
    (h1 : "redis-base" ∉ cfg.map Node.name)
    (h2 : "llm_microservice" ∉ cfg.map Node.name)
    (h3 : "microservice" ∉ cfg.map Node.name) :
    mkServices cfg
      = ("redis-base", redisBase) ::
        (cfg.map fun n => (n.name, nodeService n)) ++
        [("llm_microservice", llmService cfg), ("microservice", microService cfg)] := by
  unfold mkServices
  rw [show dictInsert "redis-base" redisBase ([] : List (String × Yaml))
      = [("redis-base", redisBase)] from rfl]
  rw [foldl_nodes_eq_append cfg [("redis-base", redisBase)] ?fresh hnd]
  case fresh =>
    intro n hn
    simp only [List.map_cons, List.map_nil, List.mem_singleton]
    intro hc
    exact h1 (hc ▸ List.mem_map_of_mem Node.name hn)
  have hkeys : (([("redis-base", redisBase)] ++
      cfg.map fun n => (n.name, nodeService n)).map Prod.fst)
      = "redis-base" :: cfg.map Node.name := by
    simp [List.map_map, Function.comp]
  have hL : "llm_microservice" ∉ (([("redis-base", redisBase)] ++
      cfg.map fun n => (n.name, nodeService n)).map Prod.fst) := by
    rw [hkeys]
    simp only [List.mem_cons, not_or]
    exact ⟨by decide, h2⟩
  rw [dictInsert_eq_append _ _ _ hL]
  have hM : "microservice" ∉ ((([("redis-base", redisBase)] ++
      cfg.map fun n => (n.name, nodeService n)) ++
      [("llm_microservice", llmService cfg)]).map Prod.fst) := by
    simp only [List.map_append, List.mem_append, not_or, hkeys]
    refine ⟨?_, ?_⟩
    · simp only [List.mem_cons, not_or]
      exact ⟨by decide, h3⟩
    · simp
  rw [dictInsert_eq_append _ _ _ hM]
  simp


/-! ### Run-semantics lemmas -/

theorem createLogs_exitOk (f : Fault) (hf : ∀ j, f ≠ Fault.logCreate j)
    (names : List String) (i : Nat) (fs : FS) :
    (createLogs f names i fs).exitOk = true := by
  induction names generalizing i fs with
  | nil => rfl
  | cons name rest ih =>
    simp only [createLogs]
    by_cases h1 : fsExists (logPath name) fs
    · simp [h1, ih]
    · simp [h1, hf (i), ih]

theorem createLogs_preserve (f : Fault) (names : List String) (i : Nat)
    (fs : FS) (p c : String) (hc : fsLookup p fs = some c) :
    fsLookup p (createLogs f names i fs).fs = some c := by
  induction names generalizing i fs with
  | nil => exact hc
  | cons name rest ih =>
    simp only [createLogs]
    by_cases h1 : fsExists (logPath name) fs
    · simp only [h1, if_true]
      exact ih _ _ hc
    · simp only [h1, if_false]
      by_cases h2 : f = Fault.logCreate i
      · simp only [h2, if_true]
        exact hc
      · simp only [h2, if_false]
        refine ih _ _ ?_
        have hne : logPath name ≠ p := by
          intro he
          rw [he] at h1
          simp [fsExists, hc] at h1
        rw [fsLookup_fsWrite_ne p (logPath name) "" fs hne]
        exact hc

theorem createLogs_create (f : Fault) (hf : ∀ j, f ≠ Fault.logCreate j)
    (names : List String) (i : Nat) (fs : FS) (name : String)
    (hm : name ∈ names) (h0 : fsLookup (logPath name) fs = none) :
    fsLookup (logPath name) (createLogs f names i fs).fs = some "" := by
  induction names generalizing i fs with
  | nil => cases hm
  | cons hd rest ih =>
    simp only [createLogs]
    rcases List.mem_cons.mp hm with he | hr
    · subst he
      have h1 : ¬ fsExists (logPath name) fs := by simp [fsExists, h0]
      simp only [h1, if_false, if_neg (hf i)]
      exact createLogs_preserve f rest (i + 1) _ _ ""
        (fsLookup_fsWrite_self (logPath name) "" fs)
    · by_cases h1 : fsExists (logPath hd) fs
      · simp only [h1, if_true]
        exact ih _ _ hr h0
      · simp only [h1, if_false, if_neg (hf i)]
        by_cases hp : logPath hd = logPath name
        · refine createLogs_preserve f rest (i + 1) _ _ "" ?_
          rw [← hp]
          rw [hp]
          exact fsLookup_fsWrite_self (logPath name) "" fs
        · refine ih _ _ hr ?_
          rw [fsLookup_fsWrite_ne (logPath name) (logPath hd) "" fs hp]
          exact h0

theorem createLogs_frame (f : Fault) (names : List String) (i : Nat)
    (fs : FS) (p : String) (h : ∀ n ∈ names, p ≠ logPath n) :
    fsLookup p (createLogs f names i fs).fs = fsLookup p fs := by
  induction names generalizing i fs with
  | nil => rfl
  | cons hd rest ih =>
    simp only [createLogs]
    by_cases h1 : fsExists (logPath hd) fs
    · rw [if_pos h1]
      exact ih _ _ (fun n hn => h n (List.mem_cons_of_mem hd hn))
    · rw [if_neg h1]
      by_cases h2 : f = Fault.logCreate i
      · rw [if_pos h2]
      · rw [if_neg h2]
        rw [ih _ _ (fun n hn => h n (List.mem_cons_of_mem hd hn))]
        exact fsLookup_fsWrite_ne p (logPath hd) "" fs
          fun he => h hd (List.mem_cons_self hd rest) he.symm

theorem run_eq_writeManifest (f : Fault) (hf : ∀ j, f ≠ Fault.logCreate j)
    (fs : FS) :
    run f fs = writeManifest f (createLogs f logNames 0 fs).fs := by
  simp [run, createLogs_exitOk f hf logNames 0 fs]

/-! ### Claims -/

/-- Claim C1: for every node of the topology table whose primary port
lies in [4000, 13999), the synthesized storage-node service's secondary
port equals `14000 + (primary_port - 4000)` (it is the first of the two
port bindings), and nodes with pairwise distinct primary ports get
pairwise distinct secondary ports. -/
theorem claim_C1 (cfg : List Node)
    (_hrange : ∀ n ∈ cfg, 4000 ≤ n.port ∧ n.port < 13999)
    (hports : (cfg.map Node.port).Nodup) :
    (∀ n ∈ cfg, yamlGet "ports" (nodeService n)
      = some (.list [.str s!"{secondaryPort n}:{secondaryPort n}",
                     .str s!"{n.port}:{n.port}"])
      ∧ secondaryPort n = 14000 + (n.port - 4000))
    ∧ (cfg.map secondaryPort).Nodup := by
  refine ⟨fun n _ => ⟨rfl, rfl⟩, ?_⟩
  have h : cfg.map secondaryPort
      = (cfg.map Node.port).map (fun p => 14000 + (p - 4000)) := by
    rw [List.map_map]
    rfl
  rw [h]
  exact List.Nodup.map (fun a b hab => by omega) hports

/-- Witness for C1 at the script's own topology table. -/
theorem claim_C1_w :
    (∀ n ∈ node_config, yamlGet "ports" (nodeService n)
      = some (.list [.str s!"{secondaryPort n}:{secondaryPort n}",
                     .str s!"{n.port}:{n.port}"])
      ∧ secondaryPort n = 14000 + (n.port - 4000))
    ∧ (node_config.map secondaryPort).Nodup :=
  claim_C1 node_config (by decide) (by decide)

/-- Claim C2: for every topology table, `REDIS_NODE_HOSTS` of both
dependent services is the comma-joined list of `name:port` endpoint
strings in the reverse of the table's declared order. -/
theorem claim_C2 (cfg : List Node) :
    serviceEnv "REDIS_NODE_HOSTS" (llmService cfg)
      = some (.str (String.intercalate "," ((cfg.map endpointStr).reverse)))
    ∧ serviceEnv "REDIS_NODE_HOSTS" (microService cfg)
      = some (.str (String.intercalate "," ((cfg.map endpointStr).reverse))) := by
  have h : redisNodeHosts cfg
      = String.intercalate "," ((cfg.map endpointStr).reverse) := by
    unfold redisNodeHosts
    rw [List.map_reverse]
  constructor
  · show some (Yaml.str (redisNodeHosts cfg)) = _
    rw [h]
  · show some (Yaml.str (redisNodeHosts cfg)) = _
    rw [h]

/-- Claim C3: for every topology table, `depends_on` of both dependent
services is the list of all storage-node names in table order; as a set
it is exactly the set of storage-node names, and permuting the table
permutes the list (so the set does not depend on table order). -/
theorem claim_C3 (cfg : List Node) :
    yamlGet "depends_on" (llmService cfg)
      = some (.list (cfg.map fun n => .str n.name))
    ∧ yamlGet "depends_on" (microService cfg)
      = some (.list (cfg.map fun n => .str n.name))
    ∧ (∀ s : String, Yaml.str s ∈ cfg.map (fun n => Yaml.str n.name)
        ↔ s ∈ cfg.map Node.name)
    ∧ (∀ cfg₂ : List Node, cfg.Perm cfg₂ →
        (cfg.map fun n => Yaml.str n.name).Perm
          (cfg₂.map fun n => Yaml.str n.name)) := by
  refine ⟨rfl, rfl, ?_, ?_⟩
  · intro s
    simp [List.mem_map]
  · intro cfg₂ hp
    exact hp.map _

/-- Witness for C3 at the script's own topology table. -/
theorem claim_C3_w :
    yamlGet "depends_on" (llmService node_config)
      = some (.list (node_config.map fun n => .str n.name))
    ∧ (node_config.map fun n => Yaml.str n.name).Perm
        (node_config.map fun n => Yaml.str n.name) :=
  ⟨(claim_C3 node_config).1,
    (claim_C3 node_config).2.2.2 node_config (List.Perm.refl _)⟩

/-- Counterexample to C4 as stated: on the script's own 9-node table the
services mapping has 12 entries, not 9 + 2 = 11 (the build-only
`redis-base` entry is the extra one). -/
theorem claim_C4_cex :
    node_config.length = 9 ∧ (mkServices node_config).length = 12
    ∧ (mkServices node_config).length ≠ node_config.length + 2 := by
  refine ⟨rfl, by decide, by decide⟩

/-- Claim C4 as amended: for every topology table with unique node names
none of which collides with the reserved service names, the services
mapping is the `redis-base` entry, the N storage-node entries in table
order, and the 2 dependent-service entries - so N + 3 entries in
total, not N + 2. -/
theorem claim_C4_amended (cfg : List Node)
    (hnd : (cfg.map Node.name).Nodup)
    (h1 : "redis-base" ∉ cfg.map Node.name)
    (h2 : "llm_microservice" ∉ cfg.map Node.name)
    (h3 : "microservice" ∉ cfg.map Node.name) :
    mkServices cfg
      = ("redis-base", redisBase) ::
        (cfg.map fun n => (n.name, nodeService n)) ++
        [("llm_microservice", llmService cfg), ("microservice", microService cfg)]
    ∧ (mkServices cfg).length = cfg.length + 3 := by
  have h := mkServices_eq cfg hnd h1 h2 h3
  refine ⟨h, ?_⟩
  rw [h]
  simp only [List.length_cons, List.length_append, List.length_map, List.length_nil]

/-- Witness for the amended C4 at the script's own topology table. -/
theorem claim_C4_w : (mkServices node_config).length = node_config.length + 3 :=
  (claim_C4_amended node_config (by decide) (by decide) (by decide) (by decide)).2

/-- Claim C5: the run is a deterministic function of the (fixed)
topology table: a fault-free run always exits 0 and leaves exactly
`manifestText` in `docker-compose.yml`, and re-running on the resulting
disk state leaves the byte-identical content again. -/
theorem claim_C5 (fs : FS) :
    (run Fault.ok fs).exitOk = true
    ∧ fsLookup "docker-compose.yml" (run Fault.ok fs).fs = some manifestText
    ∧ (run Fault.ok (run Fault.ok fs).fs).exitOk = true
    ∧ fsLookup "docker-compose.yml" (run Fault.ok (run Fault.ok fs).fs).fs
        = some manifestText := by
  have hok : ∀ j, Fault.ok ≠ Fault.logCreate j := fun j => by simp
  have hrun : ∀ gs : FS, run Fault.ok gs
      = writeManifest Fault.ok (createLogs Fault.ok logNames 0 gs).fs :=
    fun gs => run_eq_writeManifest Fault.ok hok gs
  have hlook : ∀ gs : FS,
      fsLookup "docker-compose.yml" (run Fault.ok gs).fs = some manifestText := by
    intro gs
    rw [hrun gs]
    exact fsLookup_fsWrite_self "docker-compose.yml" manifestText _
  have hexit : ∀ gs : FS, (run Fault.ok gs).exitOk = true := by
    intro gs
    rw [hrun gs]
    rfl
  exact ⟨hexit fs, hlook fs, hexit _, hlook _⟩

/-- Claim C6: a fault-free run never truncates an existing log file of
any of the script's service names, and creates a missing one empty. -/
theorem claim_C6 (fs : FS) (name : String) (h : name ∈ logNames) :
    (∀ c, fsLookup (logPath name) fs = some c →
        fsLookup (logPath name) (run Fault.ok fs).fs = some c)
    ∧ (fsLookup (logPath name) fs = none →
        fsLookup (logPath name) (run Fault.ok fs).fs = some "") := by
  have hok : ∀ j, Fault.ok ≠ Fault.logCreate j := fun j => by simp
  have hne : "docker-compose.yml" ≠ logPath name := by
    have hall : ∀ m ∈ logNames, "docker-compose.yml" ≠ logPath m := by decide
    exact hall name h
  rw [run_eq_writeManifest Fault.ok hok fs]
  constructor
  · intro c hc
    show fsLookup (logPath name)
      (fsWrite "docker-compose.yml" manifestText
        (fsWrite "docker-compose.yml" ""
          (createLogs Fault.ok logNames 0 fs).fs)) = some c
    rw [fsLookup_fsWrite_ne _ _ _ _ hne, fsLookup_fsWrite_ne _ _ _ _ hne]
    exact createLogs_preserve Fault.ok logNames 0 fs _ c hc
  · intro hc
    show fsLookup (logPath name)
      (fsWrite "docker-compose.yml" manifestText
        (fsWrite "docker-compose.yml" ""
          (createLogs Fault.ok logNames 0 fs).fs)) = some ""
    rw [fsLookup_fsWrite_ne _ _ _ _ hne, fsLookup_fsWrite_ne _ _ _ _ hne]
    exact createLogs_create Fault.ok hok logNames 0 fs name h hc

/-- Witness for C6: a pre-existing `logs/node0.log` keeps its content. -/
theorem claim_C6_w :
    fsLookup (logPath "node0") (run Fault.ok [("logs/node0.log", "KEEP")]).fs
      = some "KEEP" :=
  (claim_C6 [("logs/node0.log", "KEEP")] "node0" (by decide)).1 "KEEP" (by decide)

/-- Length of the serialization of a mapping: one character for each of
the two surrounding braces plus the body. -/
theorem renderYaml_map_length (kvs : List (String × Yaml)) :
    (renderYaml (.map kvs)).length
      = 1 + (String.intercalate ", " (renderYamlPairs kvs)).length + 1 := by
  show ("\x7b" ++ String.intercalate ", " (renderYamlPairs kvs) ++ "\x7d").length = _
  rw [String.length_append, String.length_append]
  rfl

/-- The serialized manifest is at least two characters long. -/
theorem two_le_manifestText_length : 2 ≤ manifestText.length := by
  have h : manifestText.length
      = 1 + (String.intercalate ", " (renderYamlPairs
          [("networks", Yaml.map [(network_name, Yaml.map [("driver", Yaml.str "bridge")])]),
           ("services", Yaml.map (mkServices node_config))])).length + 1 :=
    renderYaml_map_length _
  omega

/-- Counterexample to C7 as stated: a failure of the serializer after 0
characters (the output was already opened with `"w"`, truncating it)
exits non-zero, yet leaves an observable `docker-compose.yml` that is
not the fully-written manifest. -/
theorem claim_C7_cex :
    (run (Fault.dumpAfter 0) []).exitOk = false
    ∧ (fsLookup "docker-compose.yml" (run (Fault.dumpAfter 0) []).fs).isSome = true
    ∧ fsLookup "docker-compose.yml" (run (Fault.dumpAfter 0) []).fs
        ≠ some manifestText := by
  have hnf : ∀ j, Fault.dumpAfter 0 ≠ Fault.logCreate j := fun j => by simp
  have hrw := run_eq_writeManifest (Fault.dumpAfter 0) hnf []
  have hlook : fsLookup "docker-compose.yml" (run (Fault.dumpAfter 0) []).fs
      = some (String.mk (manifestText.data.take 0)) := by
    rw [hrw]
    exact fsLookup_fsWrite_self _ _ _
  have hempty : String.mk (manifestText.data.take 0) = "" := rfl
  refine ⟨by rw [hrw]; rfl, by rw [hlook]; rfl, ?_⟩
  rw [hlook, hempty]
  intro hcontra
  have hs : ("" : String) = manifestText := by
    injection hcontra
  have hlen : ("" : String).length = manifestText.length :=
    congrArg String.length hs
  have h0 : ("" : String).length = 0 := rfl
  have h2 := two_le_manifestText_length
  omega

/-- Claim C7 as amended: any injected I/O failure still exits non-zero;
a failure while creating log files (before the manifest is opened)
leaves the manifest path untouched, but a failure during serialization
leaves the truncated partial prefix on disk, because the output file is
opened with truncation before `yaml.dump` runs. -/
theorem claim_C7_amended (fs : FS) (k : Nat) (i : Nat) :
    ((run (Fault.dumpAfter k) fs).exitOk = false
      ∧ fsLookup "docker-compose.yml" (run (Fault.dumpAfter k) fs).fs
          = some (String.mk (manifestText.data.take k)))
    ∧ ((run (Fault.logCreate i) fs).exitOk = false →
        fsLookup "docker-compose.yml" (run (Fault.logCreate i) fs).fs
          = fsLookup "docker-compose.yml" fs) := by
  have hnf : ∀ j, Fault.dumpAfter k ≠ Fault.logCreate j := fun j => by simp
  constructor
  · rw [run_eq_writeManifest (Fault.dumpAfter k) hnf fs]
    exact ⟨rfl, fsLookup_fsWrite_self _ _ _⟩
  · intro hexit
    have hframe : ∀ m ∈ logNames, "docker-compose.yml" ≠ logPath m := by decide
    by_cases hc : (createLogs (Fault.logCreate i) logNames 0 fs).exitOk = true
    · exfalso
      have hw : run (Fault.logCreate i) fs
          = writeManifest (Fault.logCreate i)
              (createLogs (Fault.logCreate i) logNames 0 fs).fs := by
        simp [run, hc]
      rw [hw] at hexit
      simp [writeManifest] at hexit
    · have hw : run (Fault.logCreate i) fs
          = createLogs (Fault.logCreate i) logNames 0 fs := by
        simp [run, hc]
      rw [hw]
      exact createLogs_frame (Fault.logCreate i) logNames 0 fs _ hframe

/-- Witness for the amended C7: a failure creating the very first log
file on an empty disk exits non-zero and leaves no manifest. -/
theorem claim_C7_w :
    fsLookup "docker-compose.yml" (run (Fault.logCreate 0) []).fs
      = fsLookup "docker-compose.yml" ([] : FS) :=
  (claim_C7_amended [] 0 0).2 (by decide)

/-- Claim C8: every storage-node service exposes exactly two port
bindings, the derived secondary port followed by the node's primary
port. -/
theorem claim_C8 (cfg : List Node) (n : Node) (_h : n ∈ cfg) :
    yamlGet "ports" (nodeService n)
      = some (.list [.str s!"{secondaryPort n}:{secondaryPort n}",
                     .str s!"{n.port}:{n.port}"])
    ∧ ([Yaml.str s!"{secondaryPort n}:{secondaryPort n}",
        Yaml.str s!"{n.port}:{n.port}"] : List Yaml).length = 2 :=
  ⟨rfl, rfl⟩

/-- Witness for C8 at the first node of the script's table. -/
theorem claim_C8_w :
    yamlGet "ports" (nodeService node0)
      = some (.list [
          .str s!"{secondaryPort node0}:{secondaryPort node0}",
          .str s!"{node0.port}:{node0.port}"]) :=
  (claim_C8 node_config node0 (by decide)).1

/-- Claim C9: on an empty topology table the services mapping is just
the build-only base entry and the two dependent services, whose
`depends_on` lists and endpoint lists are empty. -/
theorem claim_C9 :
    mkServices [] = [("redis-base", redisBase),
      ("llm_microservice", llmService []), ("microservice", microService [])]
    ∧ yamlGet "depends_on" (llmService []) = some (.list [])
    ∧ yamlGet "depends_on" (microService []) = some (.list [])
    ∧ serviceEnv "REDIS_NODE_HOSTS" (llmService []) = some (.str "")
    ∧ serviceEnv "REDIS_NODE_HOSTS" (microService []) = some (.str "") :=
  ⟨rfl, rfl, rfl, rfl, rfl⟩

/-- Claim C10: the services mapping additionally carries the build-only
`redis-base` entry, inserted before all storage-node services; it is
neither a storage-node entry nor a dependent-service entry, and the
total entry count is N + 3, not N + 2. -/
theorem claim_C10 (cfg : List Node)
    (hnd : (cfg.map Node.name).Nodup)
    (h1 : "redis-base" ∉ cfg.map Node.name)
    (h2 : "llm_microservice" ∉ cfg.map Node.name)
    (h3 : "microservice" ∉ cfg.map Node.name) :
    (mkServices cfg).head? = some ("redis-base", redisBase)
    ∧ yamlGet "profiles" redisBase = some (.list [.str "build-only"])
    ∧ "redis-base" ∉ cfg.map Node.name
    ∧ ("redis-base" : String) ≠ "llm_microservice"
    ∧ ("redis-base" : String) ≠ "microservice"
    ∧ (mkServices cfg).length = cfg.length + 3
    ∧ (mkServices cfg).length ≠ cfg.length + 2 := by
  have h := mkServices_eq cfg hnd h1 h2 h3
  rw [h]
  refine ⟨rfl, rfl, h1, by decide, by decide, ?_, ?_⟩
  · simp only [List.length_cons, List.length_append, List.length_map, List.length_nil]
  · simp only [List.length_cons, List.length_append, List.length_map, List.length_nil]
    omega

/-- Witness for C10 at the script's own topology table. -/
theorem claim_C10_w :
    (mkServices node_config).head? = some ("redis-base", redisBase) :=
  (claim_C10 node_config (by decide) (by decide) (by decide) (by decide)).1
